import Mathlib

/-!
Verification of the monitoring core of the database table checker
(`src/databaseChecker.py`, class `DatabaseTableChecker`).

Time is modelled in whole seconds as `Nat` (the source works with
`datetime` values and compares `(now - last).total_seconds()` against the
integer cooldown `self.alert_cooldown`).  The cooldown dictionary
`self.last_alert_times` is modelled extensionally as a function from check
names to optional timestamps, which matches Python dict lookup/overwrite
semantics at the single key used by the code.
-/

/-- The cooldown dictionary `self.last_alert_times`: check name to the
timestamp of the last successful alert.  `none` means no entry. -/
def CooldownMap : Type := String → Option Nat

/-- Initial value of `self.last_alert_times` (line 43: the empty dict). -/
def emptyCooldown : CooldownMap := fun _ => none

/-- The dict write `self.last_alert_times[check_name] = datetime.now()`
(line 362): overwrite the entry for `name` with timestamp `t`. -/
def recordSuccess (st : CooldownMap) (name : String) (t : Nat) : CooldownMap :=
  fun k => if k = name then some t else st k

/-- Embedding of `DatabaseTableChecker.should_send_alert` (lines 230-246).
`W` is `self.alert_cooldown`, `st` is `self.last_alert_times`, `now` is
`datetime.now()`.  Returns `true` when no entry exists, otherwise when the
elapsed seconds strictly exceed the cooldown. -/
def should_send_alert (W : Nat) (st : CooldownMap) (now : Nat) (check_name : String) : Bool :=
  match st check_name with
  | none => true
  | some last => decide (W < now - last)

/-- Embedding of `DatabaseTableChecker.send_email_alert` (lines 320-369).
The SMTP transaction is external: `sendOk` says whether the try block
around message construction and sending succeeds (`true`) or raises
(`false`, caught at line 367 and turned into `return False`).
`check_name` is the optional keyword argument; Python truthiness makes
both `None` and the empty string skip the cooldown check (line 335) and
the timestamp write (line 361).  Returns the Python return value paired
with the updated `last_alert_times`. -/
def send_email_alert (W now : Nat) (st : CooldownMap) (check_name : Option String)
    (sendOk : Bool) : Bool × CooldownMap :=
  match check_name with
  | some n =>
    if !(n == "") && !(should_send_alert W st now n) then
      (false, st)
    else if sendOk then
      (true, if !(n == "") then recordSuccess st n now else st)
    else
      (false, st)
  | none =>
    if sendOk then (true, st) else (false, st)

/-- C1: `should_send_alert` is true iff there is no recorded success or the
elapsed time strictly exceeds the cooldown window; immediately after
`recordSuccess` at time `t` it is false at time `t`; and when the elapsed
time equals the window exactly it is still false. -/
theorem C1_should_send_alert_characterization (W now : Nat) (st : CooldownMap)
    (name : String) :
    (should_send_alert W st now name = true ↔
      st name = none ∨ ∃ last, st name = some last ∧ W < now - last)
    ∧ (∀ t, should_send_alert W (recordSuccess st name t) t name = false)
    ∧ (∀ last, st name = some last → should_send_alert W st (last + W) name = false) := by
  refine ⟨?_, ?_, ?_⟩
  · cases h : st name with
    | none => simp [should_send_alert, h]
    | some last =>
      simp only [should_send_alert, h, decide_eq_true_eq]
      constructor
      · intro hlt
        exact Or.inr ⟨last, rfl, hlt⟩
      · rintro (hc | ⟨l, hl, hlt⟩)
        · exact absurd hc (by simp)
        · cases hl
          exact hlt
  · intro t
    simp [should_send_alert, recordSuccess]
  · intro last h
    simp [should_send_alert, h]

/-- Closed instance of `C1_should_send_alert_characterization`. -/
theorem C1_witness :
    emptyCooldown "orders" = none ∧
    should_send_alert 3600 (recordSuccess emptyCooldown "orders" 7) 7 "orders" = false ∧
    should_send_alert 3600 (recordSuccess emptyCooldown "orders" 7) (7 + 3600) "orders" = false := by
  refine ⟨rfl, (C1_should_send_alert_characterization 3600 7 emptyCooldown "orders").2.1 7, ?_⟩
  exact (C1_should_send_alert_characterization 3600 (7 + 3600)
    (recordSuccess emptyCooldown "orders" 7) "orders").2.2 7 (by simp [recordSuccess, emptyCooldown])

/-- C2: when the notifier fails, `send_email_alert` leaves the cooldown
state unchanged and returns false, so a later call sees the same cooldown
decision; the state changes only on a successful send. -/
theorem C2_failed_send_no_state_change (W now now2 : Nat) (st : CooldownMap)
    (name : String) :
    (send_email_alert W now st (some name) false).2 = st
    ∧ (send_email_alert W now st (some name) false).1 = false
    ∧ should_send_alert W (send_email_alert W now st (some name) false).2 now2 name
        = should_send_alert W st now2 name
    ∧ (∀ cn b, (send_email_alert W now st cn b).2 ≠ st → b = true) := by
  have hst : (send_email_alert W now st (some name) false).2 = st := by
    simp only [send_email_alert]
    by_cases h : (!(name == "") && !(should_send_alert W st now name)) = true
    · simp [h]
    · simp [h]
  refine ⟨hst, ?_, by rw [hst], ?_⟩
  · simp only [send_email_alert]
    by_cases h : (!(name == "") && !(should_send_alert W st now name)) = true
    · simp [h]
    · simp [h]
  · intro cn b hne
    cases b with
    | true => rfl
    | false =>
      exfalso
      apply hne
      cases cn with
      | none => simp [send_email_alert]
      | some n =>
        simp only [send_email_alert]
        by_cases h : (!(n == "") && !(should_send_alert W st now n)) = true
        · simp [h]
        · simp [h]

/-- Closed instance of `C2_failed_send_no_state_change`. -/
theorem C2_witness :
    (send_email_alert 3600 5 emptyCooldown (some "orders") false).2 = emptyCooldown ∧
    (send_email_alert 3600 5 emptyCooldown (some "orders") false).1 = false := by
  refine ⟨(C2_failed_send_no_state_change 3600 5 9 emptyCooldown "orders").1,
    (C2_failed_send_no_state_change 3600 5 9 emptyCooldown "orders").2.1⟩

/-- C10: for a truthy check name the return value of `send_email_alert` is
the conjunction of the cooldown decision and the send outcome: false both
when the alert is suppressed by cooldown and when the send fails, true
exactly when an email was actually sent. -/
theorem C10_return_value_conflates_suppression_and_failure (W now : Nat)
    (st : CooldownMap) (n : String) (hn : n ≠ "") (b : Bool) :
    (send_email_alert W now st (some n) b).1 = (should_send_alert W st now n && b)
    ∧ (should_send_alert W st now n = false → (send_email_alert W now st (some n) b).1 = false)
    ∧ (send_email_alert W now st (some n) false).1 = false
    ∧ ((send_email_alert W now st (some n) b).1 = true ↔
        should_send_alert W st now n = true ∧ b = true) := by
  have hbe : (n == "") = false := by
    exact beq_eq_false_iff_ne.mpr hn
  have hmain : (send_email_alert W now st (some n) b).1
      = (should_send_alert W st now n && b) := by
    simp only [send_email_alert, hbe, Bool.not_false, Bool.true_and]
    cases h : should_send_alert W st now n with
    | false => simp
    | true => cases b <;> simp
  refine ⟨hmain, ?_, ?_, ?_⟩
  · intro h
    rw [hmain, h]
    simp
  · have hbe2 : (n == "") = false := hbe
    simp only [send_email_alert, hbe2, Bool.not_false, Bool.true_and]
    cases h : should_send_alert W st now n <;> simp [h]
  · rw [hmain]
    cases should_send_alert W st now n <;> cases b <;> simp

/-- Closed instance of `C10_return_value_conflates_suppression_and_failure`. -/
theorem C10_witness :
    (send_email_alert 3600 5 emptyCooldown (some "orders") true).1
      = (should_send_alert 3600 emptyCooldown 5 "orders" && true) := by
  exact (C10_return_value_conflates_suppression_and_failure 3600 5 emptyCooldown "orders"
    (by decide) true).1

/-!
Backend table-existence checks.  `check_table_sqlite` (lines 248-275) and
`check_table_postgres` (lines 277-318) each run a sequence of fallible
steps inside one try/except: connect, execute the catalog query, fetch the
row, close the connection, return.  The environment records the outcome of
each external step; the embedding returns the boolean result together with
whether a connection was opened and whether it was closed before the
function returned.  The single catch-all `except` makes the functions
total: every environment yields a boolean, so no exception reaches the
caller.
-/

/-- Outcome trace of one backend check invocation. -/
structure DbRunTrace where
  result : Bool
  opened : Bool
  closed : Bool
deriving DecidableEq

/-- External world of one `check_table_sqlite` invocation: whether
`sqlite3.connect` succeeds, whether `cursor.execute` succeeds, and what
`cursor.fetchone` yields (a row or `None`) or whether it raises. -/
structure SqliteEnv where
  connect : Except String Unit
  execute : Except String Unit
  fetchone : Except String (Option Unit)

/-- Embedding of `check_table_sqlite` (lines 248-275): on the full success
path the connection is closed (line 269) and the result is whether a row
was found (line 271); any raising step jumps to the `except` at line 273,
which logs and returns `False` without closing anything. -/
def check_table_sqlite (env : SqliteEnv) : DbRunTrace :=
  match env.connect with
  | Except.error _ => ⟨false, false, false⟩
  | Except.ok _ =>
    match env.execute with
    | Except.error _ => ⟨false, true, false⟩
    | Except.ok _ =>
      match env.fetchone with
      | Except.error _ => ⟨false, true, false⟩
      | Except.ok r => ⟨r.isSome, true, true⟩

/-- External world of one `check_table_postgres` invocation.  `fetchone`
yields the one-element row of the `SELECT EXISTS` query (`some b`), yields
no row (`none`, in which case the subscript `[0]` at line 311 raises), or
raises itself. -/
structure PgEnv where
  connect : Except String Unit
  execute : Except String Unit
  fetchone : Except String (Option Bool)

/-- Embedding of `check_table_postgres` (lines 277-318): on the full
success path the connection is closed (line 312) and the boolean from the
`EXISTS` query is returned (line 314); any raising step, including the
subscript on a missing row, jumps to the `except` at line 316, which logs
and returns `False` without closing anything. -/
def check_table_postgres (env : PgEnv) : DbRunTrace :=
  match env.connect with
  | Except.error _ => ⟨false, false, false⟩
  | Except.ok _ =>
    match env.execute with
    | Except.error _ => ⟨false, true, false⟩
    | Except.ok _ =>
      match env.fetchone with
      | Except.error _ => ⟨false, true, false⟩
      | Except.ok none => ⟨false, true, false⟩
      | Except.ok (some b) => ⟨b, true, true⟩

/-- Whether an `Except` value is an error. -/
def exceptFailed {α : Type} : Except String α → Bool
  | Except.error _ => true
  | Except.ok _ => false

/-- Whether a sqlite invocation hits an execution error. -/
def sqliteExecError (env : SqliteEnv) : Bool :=
  exceptFailed env.connect || exceptFailed env.execute || exceptFailed env.fetchone

/-- Whether a postgres invocation hits an execution error (a missing row
counts: the subscript on `None` raises inside the try block). -/
def pgExecError (env : PgEnv) : Bool :=
  exceptFailed env.connect || exceptFailed env.execute ||
    (match env.fetchone with
     | Except.error _ => true
     | Except.ok none => true
     | Except.ok (some _) => false)

/-- The sqlite environment in which everything works and the table is
absent (catalog query returns no row). -/
def sqliteAbsentEnv : SqliteEnv := ⟨Except.ok (), Except.ok (), Except.ok none⟩

/-- The postgres environment in which everything works and the table is
absent (`EXISTS` query returns `false`). -/
def pgAbsentEnv : PgEnv := ⟨Except.ok (), Except.ok (), Except.ok (some false)⟩

/-- C3: both backend checks return `false` on every execution error, and
that result coincides with the result for an absent table, so an error is
indistinguishable from absence in the returned value. -/
theorem C3_errors_indistinguishable_from_absence :
    (∀ env : SqliteEnv, sqliteExecError env = true →
      (check_table_sqlite env).result = false ∧
      (check_table_sqlite env).result = (check_table_sqlite sqliteAbsentEnv).result)
    ∧ (∀ env : PgEnv, pgExecError env = true →
      (check_table_postgres env).result = false ∧
      (check_table_postgres env).result = (check_table_postgres pgAbsentEnv).result) := by
  constructor
  · rintro ⟨c, e, f⟩ h
    cases c <;> cases e <;> cases f <;>
      simp_all [check_table_sqlite, sqliteExecError, exceptFailed, sqliteAbsentEnv]
  · rintro ⟨c, e, f⟩ h
    cases c <;> cases e <;> rcases f with _ | (_ | b) <;>
      simp_all [check_table_postgres, pgExecError, exceptFailed, pgAbsentEnv]

/-- Closed instance of `C3_errors_indistinguishable_from_absence`. -/
theorem C3_witness :
    (check_table_sqlite ⟨Except.error "no such file", Except.ok (), Except.ok none⟩).result
      = false ∧
    (check_table_postgres ⟨Except.ok (), Except.error "query failed",
      Except.ok (some true)⟩).result = false := by
  refine ⟨(C3_errors_indistinguishable_from_absence.1
      ⟨Except.error "no such file", Except.ok (), Except.ok none⟩ (by decide)).1,
    (C3_errors_indistinguishable_from_absence.2
      ⟨Except.ok (), Except.error "query failed", Except.ok (some true)⟩ (by decide)).1⟩

/-- C5 counterexample: when the catalog query raises after a successful
connect, `check_table_sqlite` returns with the connection opened but not
closed (there is no finally block and the `except` branch does not close). -/
theorem C5_counterexample :
    (check_table_sqlite ⟨Except.ok (), Except.error "malformed db", Except.ok none⟩).opened
      = true ∧
    (check_table_sqlite ⟨Except.ok (), Except.error "malformed db", Except.ok none⟩).closed
      = false := by
  exact ⟨rfl, rfl⟩

/-- C5 amended: the connection is closed before return exactly on the full
success path; whenever a step after a successful connect raises, the
connection is left open, in both backends. -/
theorem C5_connection_closed_only_on_success :
    (∀ env : SqliteEnv, (check_table_sqlite env).closed = true ↔ sqliteExecError env = false)
    ∧ (∀ env : SqliteEnv,
        ((check_table_sqlite env).opened = true ∧ (check_table_sqlite env).closed = false)
          ↔ (exceptFailed env.connect = false ∧ sqliteExecError env = true))
    ∧ (∀ env : PgEnv, (check_table_postgres env).closed = true ↔ pgExecError env = false)
    ∧ (∀ env : PgEnv,
        ((check_table_postgres env).opened = true ∧ (check_table_postgres env).closed = false)
          ↔ (exceptFailed env.connect = false ∧ pgExecError env = true)) := by
  refine ⟨?_, ?_, ?_, ?_⟩
  · rintro ⟨c, e, f⟩
    cases c <;> cases e <;> cases f <;>
      simp [check_table_sqlite, sqliteExecError, exceptFailed]
  · rintro ⟨c, e, f⟩
    cases c <;> cases e <;> cases f <;>
      simp [check_table_sqlite, sqliteExecError, exceptFailed]
  · rintro ⟨c, e, f⟩
    cases c <;> cases e <;> rcases f with _ | (_ | b) <;>
      simp [check_table_postgres, pgExecError, exceptFailed]
  · rintro ⟨c, e, f⟩
    cases c <;> cases e <;> rcases f with _ | (_ | b) <;>
      simp [check_table_postgres, pgExecError, exceptFailed]

/-!
One configured check and one tick.  `perform_single_check` (lines 371-410)
wraps the backend dispatch and the alerting in a try/except of its own;
`run_all_checks` (lines 412-423) iterates over `self.checks_config` in
order.  The backend call is abstracted by its observable outcome: a
boolean existence result, or an unexpected exception escaping the backend
contract (caught by the `except` at line 409).  The notifier outcome for
the descriptor, if an alert is attempted, is the `sendOk` flag of
`send_email_alert`.
-/

/-- One entry of `self.checks_config` as built by `_load_checks_from_env`
(lines 128-133); the backend connection details are opaque to the core. -/
structure CheckConfig where
  name : String
  dbType : String
  table_name : String
  alert_email : String
deriving DecidableEq

/-- Observable outcome of the backend dispatch for one descriptor:
a returned existence boolean, or an unexpected raised exception. -/
inductive BackendOutcome
  | raise
  | result : Bool → BackendOutcome
deriving DecidableEq

/-- External world of one `perform_single_check` invocation. -/
structure CheckEnv where
  backend : BackendOutcome
  sendOk : Bool
deriving DecidableEq

/-- What one `perform_single_check` invocation did, per its log branches. -/
inductive CheckEvent
  | tableExists
  | missingAlerted
  | missingNotAlerted
  | errorCaught
deriving DecidableEq

/-- Embedding of `perform_single_check` (lines 371-410): an unexpected
backend exception is caught at line 409 (logged, no alert, no state
change); an existing table only logs (line 404); a missing table calls
`send_email_alert` with the check name (line 407).  Returns the updated
cooldown state and the observable event. -/
def perform_single_check (W now : Nat) (st : CooldownMap) (cfg : CheckConfig)
    (env : CheckEnv) : CooldownMap × CheckEvent :=
  match env.backend with
  | BackendOutcome.raise => (st, CheckEvent.errorCaught)
  | BackendOutcome.result true => (st, CheckEvent.tableExists)
  | BackendOutcome.result false =>
    let r := send_email_alert W now st (some cfg.name) env.sendOk
    (r.2, if r.1 then CheckEvent.missingAlerted else CheckEvent.missingNotAlerted)

/-- Embedding of `run_all_checks` (lines 412-423): fold over the
configured checks in store order, threading the cooldown state and
collecting one event per descriptor. -/
def run_all_checks (W now : Nat) (st : CooldownMap) :
    List (CheckConfig × CheckEnv) → CooldownMap × List CheckEvent
  | [] => (st, [])
  | (cfg, env) :: rest =>
    let r := perform_single_check W now st cfg env
    let rr := run_all_checks W now r.1 rest
    (rr.1, r.2 :: rr.2)

/-- Splitting a tick at any position: the events of the whole list are the
events of the prefix followed by the events of the suffix started from the
state the prefix produced. -/
theorem run_all_checks_append (W now : Nat) (pre suf : List (CheckConfig × CheckEnv)) :
    ∀ st : CooldownMap,
      (run_all_checks W now st (pre ++ suf)).2
        = (run_all_checks W now st pre).2
            ++ (run_all_checks W now (run_all_checks W now st pre).1 suf).2 := by
  induction pre with
  | nil => intro st; simp [run_all_checks]
  | cons hd tl ih =>
    intro st
    obtain ⟨cfg, env⟩ := hd
    simp only [List.cons_append, run_all_checks, List.append_eq]
    rw [ih]

/-- One event per descriptor. -/
theorem run_all_checks_length (W now : Nat) (l : List (CheckConfig × CheckEnv)) :
    ∀ st : CooldownMap, (run_all_checks W now st l).2.length = l.length := by
  induction l with
  | nil => intro st; simp [run_all_checks]
  | cons hd tl ih =>
    intro st
    obtain ⟨cfg, env⟩ := hd
    simp [run_all_checks, ih]

/-- C6: one tick produces exactly one event per descriptor, and the event
at any position is the evaluation of that descriptor from the state left
by the prefix, no matter what the prefix contained (in particular earlier
descriptors whose backend raised): per-descriptor failures are isolated
and every descriptor of the tick is processed in store order. -/
theorem C6_tick_processes_every_descriptor (W now : Nat) (st : CooldownMap)
    (l pre post : List (CheckConfig × CheckEnv)) (cfg : CheckConfig) (env : CheckEnv)
    (hl : l = pre ++ (cfg, env) :: post) :
    (run_all_checks W now st l).2.length = l.length
    ∧ (run_all_checks W now st l).2[pre.length]?
        = some (perform_single_check W now (run_all_checks W now st pre).1 cfg env).2 := by
  constructor
  · exact run_all_checks_length W now l st
  · subst hl
    rw [run_all_checks_append]
    rw [List.getElem?_append_right (by rw [run_all_checks_length])]
    rw [run_all_checks_length]
    simp [run_all_checks]

/-- Closed instance of `C6_tick_processes_every_descriptor`: the first
descriptor raises unexpectedly, the second is still evaluated. -/
theorem C6_witness :
    (run_all_checks 60 0 emptyCooldown
        [(⟨"a", "sqlite", "t1", "x"⟩, ⟨BackendOutcome.raise, true⟩),
         (⟨"b", "sqlite", "t2", "x"⟩, ⟨BackendOutcome.result false, true⟩)]).2.length = 2
    ∧ (run_all_checks 60 0 emptyCooldown
        [(⟨"a", "sqlite", "t1", "x"⟩, ⟨BackendOutcome.raise, true⟩),
         (⟨"b", "sqlite", "t2", "x"⟩, ⟨BackendOutcome.result false, true⟩)]).2[1]?
        = some (perform_single_check 60 0
            (run_all_checks 60 0 emptyCooldown
              [(⟨"a", "sqlite", "t1", "x"⟩, ⟨BackendOutcome.raise, true⟩)]).1
            ⟨"b", "sqlite", "t2", "x"⟩ ⟨BackendOutcome.result false, true⟩).2 := by
  have h := C6_tick_processes_every_descriptor 60 0 emptyCooldown
    [(⟨"a", "sqlite", "t1", "x"⟩, ⟨BackendOutcome.raise, true⟩),
     (⟨"b", "sqlite", "t2", "x"⟩, ⟨BackendOutcome.result false, true⟩)]
    [(⟨"a", "sqlite", "t1", "x"⟩, ⟨BackendOutcome.raise, true⟩)] []
    ⟨"b", "sqlite", "t2", "x"⟩ ⟨BackendOutcome.result false, true⟩ rfl
  exact ⟨h.1, h.2⟩

/-- For a descriptor with a truthy name whose backend reports missing and
whose notifier succeeds, `perform_single_check` either alerts and records
the timestamp, or is suppressed by the cooldown and leaves the state
unchanged. -/
theorem perform_missing_step (W t : Nat) (st : CooldownMap) (cfg : CheckConfig)
    (hn : cfg.name ≠ "") :
    perform_single_check W t st cfg ⟨BackendOutcome.result false, true⟩
      = if should_send_alert W st t cfg.name
        then (recordSuccess st cfg.name t, CheckEvent.missingAlerted)
        else (st, CheckEvent.missingNotAlerted) := by
  have hbe : (cfg.name == "") = false := beq_eq_false_iff_ne.mpr hn
  simp only [perform_single_check, send_email_alert, hbe, Bool.not_false, Bool.true_and]
  cases h : should_send_alert W st t cfg.name <;> simp [h]

/-- C8: two descriptors carrying the same (truthy) name share one cooldown
entry keyed by that name: the cooldown decision is the same for both, and
a successful alert triggered through the first descriptor writes the
timestamp that the second descriptor reads, suppressing it for the whole
window. -/
theorem C8_duplicate_names_share_cooldown (W now : Nat) (st : CooldownMap)
    (d1 d2 : CheckConfig) (hname : d1.name = d2.name) (hne : d1.name ≠ "")
    (halert : should_send_alert W st now d1.name = true) :
    should_send_alert W st now d2.name = should_send_alert W st now d1.name
    ∧ (perform_single_check W now st d1 ⟨BackendOutcome.result false, true⟩).2
        = CheckEvent.missingAlerted
    ∧ (perform_single_check W now st d1 ⟨BackendOutcome.result false, true⟩).1 d2.name
        = some now
    ∧ (∀ t, now ≤ t → t - now ≤ W →
        should_send_alert W
          (perform_single_check W now st d1 ⟨BackendOutcome.result false, true⟩).1
          t d2.name = false) := by
  rw [perform_missing_step W now st d1 hne]
  refine ⟨by rw [hname], ?_, ?_, ?_⟩
  · simp [halert]
  · simp only [halert, if_true]
    simp [recordSuccess, hname]
  · intro t hle hwin
    simp only [halert, if_true]
    have : (recordSuccess st d1.name now) d2.name = some now := by
      simp [recordSuccess, hname]
    simp only [should_send_alert, this, decide_eq_false_iff_not]
    omega

/-- Closed instance of `C8_duplicate_names_share_cooldown`. -/
theorem C8_witness :
    (perform_single_check 60 0 emptyCooldown ⟨"dup", "sqlite", "t1", "x"⟩
        ⟨BackendOutcome.result false, true⟩).1 "dup" = some 0
    ∧ should_send_alert 60 (perform_single_check 60 0 emptyCooldown ⟨"dup", "sqlite", "t1", "x"⟩
        ⟨BackendOutcome.result false, true⟩).1 30 "dup" = false := by
  have h := C8_duplicate_names_share_cooldown 60 0 emptyCooldown
    ⟨"dup", "sqlite", "t1", "x"⟩ ⟨"dup", "postgres", "t2", "y"⟩ rfl (by decide) (by decide)
  exact ⟨h.2.2.1, h.2.2.2 30 (by decide) (by decide)⟩

/-!
Alert counting over a run of ticks for one descriptor whose backend always
reports missing and whose notifier always succeeds.  Each tick happens at
a given timestamp; the list of timestamps is the schedule of the run.
-/

/-- Number of notifier invocations that actually send, over consecutive
ticks at the given timestamps, for a descriptor whose backend always
reports missing and whose notifier always succeeds. -/
def runMissingTicks (W : Nat) (cfg : CheckConfig) : CooldownMap → List Nat → Nat
  | _, [] => 0
  | st, t :: ts =>
    (if (perform_single_check W t st cfg ⟨BackendOutcome.result false, true⟩).2
        = CheckEvent.missingAlerted then 1 else 0)
      + runMissingTicks W cfg
          (perform_single_check W t st cfg ⟨BackendOutcome.result false, true⟩).1 ts

/-- Bound on the alert count once a timestamp is recorded: two successive
successful alerts are more than `W` apart, so from a recorded success at
`last` at most `(B - last) / (W + 1)` further alerts fit before `B`. -/
theorem runMissingTicks_some_le (W : Nat) (cfg : CheckConfig) (hn : cfg.name ≠ "") :
    ∀ (ts : List Nat) (B last : Nat) (m : CooldownMap),
      m cfg.name = some last → (∀ t ∈ ts, t ≤ B) →
      runMissingTicks W cfg m ts ≤ (B - last) / (W + 1) := by
  intro ts
  induction ts with
  | nil =>
    intro B last m hm hts
    simp [runMissingTicks]
  | cons t ts ih =>
    intro B last m hm hts
    rw [runMissingTicks, perform_missing_step W t m cfg hn]
    have hmem : t ≤ B := hts t (List.mem_cons_self t ts)
    by_cases hlt : W < t - last
    · have hs : should_send_alert W m t cfg.name = true := by
        simp [should_send_alert, hm, hlt]
      have hrec : (recordSuccess m cfg.name t) cfg.name = some t := by
        simp [recordSuccess]
      have ihb := ih B t (recordSuccess m cfg.name t) hrec
        (fun u hu => hts u (List.mem_cons_of_mem t hu))
      have hstep : last + (W + 1) ≤ t := by omega
      have hdiv : (B - t) / (W + 1) + 1 ≤ (B - last) / (W + 1) := by
        calc (B - t) / (W + 1) + 1
            = ((B - t) + (W + 1)) / (W + 1) := (Nat.add_div_right _ (Nat.succ_pos W)).symm
          _ ≤ (B - last) / (W + 1) := Nat.div_le_div_right (by omega)
      simp only [hs, if_true]
      omega
    · have hs : should_send_alert W m t cfg.name = false := by
        simp [should_send_alert, hm, hlt]
      have ihb := ih B last m hm (fun u hu => hts u (List.mem_cons_of_mem t hu))
      simp [hs]
      omega

/-- C4 amended: for a descriptor whose backend always reports missing and
whose notifier always succeeds, over ticks at times `t0 :: ts` all bounded
by `B`, the number of notifier invocations that send is at most
`(B - t0) / W + 1`, the floor of the spanned time over the cooldown window
plus one. -/
theorem C4_alert_count_upper_bound (W : Nat) (hW : 0 < W) (cfg : CheckConfig)
    (hn : cfg.name ≠ "") (t0 : Nat) (ts : List Nat) (B : Nat)
    (_ht0 : t0 ≤ B) (hts : ∀ t ∈ ts, t ≤ B) :
    runMissingTicks W cfg emptyCooldown (t0 :: ts) ≤ (B - t0) / W + 1 := by
  rw [runMissingTicks, perform_missing_step W t0 emptyCooldown cfg hn]
  have hs : should_send_alert W emptyCooldown t0 cfg.name = true := by
    simp [should_send_alert, emptyCooldown]
  simp only [hs, if_true, if_pos rfl]
  have hrec : (recordSuccess emptyCooldown cfg.name t0) cfg.name = some t0 := by
    simp [recordSuccess]
  have hb := runMissingTicks_some_le W cfg hn ts B t0 _ hrec hts
  have hdiv : (B - t0) / (W + 1) ≤ (B - t0) / W :=
    Nat.div_le_div_left (Nat.le_succ W) hW
  omega

/-- A concrete descriptor used in the counting scenarios. -/
def cfgDemo : CheckConfig := ⟨"a", "sqlite", "tbl", "dev at example"⟩

/-- C4 counterexample to the exact count: cooldown `W = 2`, five ticks at
times 0..4 (so `N = 5` and the run spans `4 > W` time, more than one
window).  The code sends 2 alerts (at times 0 and 3), while the claimed
formula gives `floor(4 / 2) + 1 = 3`; the count also differs from `N`. -/
theorem C4_counterexample :
    runMissingTicks 2 cfgDemo emptyCooldown [0, 1, 2, 3, 4] = 2
    ∧ (4 - 0) / 2 + 1 = 3
    ∧ runMissingTicks 2 cfgDemo emptyCooldown [0, 1, 2, 3, 4] ≠ (4 - 0) / 2 + 1
    ∧ runMissingTicks 2 cfgDemo emptyCooldown [0, 1, 2, 3, 4] ≠ 5 := by
  refine ⟨by decide, by decide, by decide, by decide⟩

/-- Closed instance of `C4_alert_count_upper_bound`. -/
theorem C4_witness :
    0 < 2 ∧ runMissingTicks 2 cfgDemo emptyCooldown (0 :: [1, 2, 3, 4]) ≤ (4 - 0) / 2 + 1 :=
  ⟨by decide, C4_alert_count_upper_bound 2 (by decide) cfgDemo (by decide) 0 [1, 2, 3, 4] 4
    (by decide) (by decide)⟩

/-!
The monitoring loop (lines 425-443) in discrete time.  `running` is the
value the loop reads for `self.is_running` at a given instant (set by the
controlling caller); `raises` says whether the tick started at a given
instant escapes `run_all_checks` and lands in the `except` at line 441;
`tickDur` is the duration of one tick; `interval` is
`self.check_interval`.  Each `time.sleep(1)` slice (line 438) advances the
clock by one; the recovery pause (line 443) advances it by ten.  The value
of the function is the list of instants at which a tick starts, and fuel
bounds the number of evaluation steps.
-/

/-- Control position inside `monitoring_loop`: at the outer `while` test
(line 431), or inside the sliced sleep with the current value of
`sleep_time` (lines 436-439). -/
inductive LoopPhase
  | outer
  | inner : Nat → LoopPhase

/-- Embedding of `monitoring_loop` (lines 425-443): returns the start
times of the ticks the loop performs. -/
def monitoring_loop (running raises : Nat → Bool) (interval tickDur : Nat) :
    Nat → LoopPhase → Nat → List Nat
  | 0, _, _ => []
  | Nat.succ f, LoopPhase.outer, t =>
    if running t then
      if raises t then
        t :: monitoring_loop running raises interval tickDur f LoopPhase.outer (t + tickDur + 10)
      else
        t :: monitoring_loop running raises interval tickDur f (LoopPhase.inner 0) (t + tickDur)
    else []
  | Nat.succ f, LoopPhase.inner s, t =>
    if s < interval && running t then
      monitoring_loop running raises interval tickDur f (LoopPhase.inner (s + 1)) (t + 1)
    else
      monitoring_loop running raises interval tickDur f LoopPhase.outer t

/-- Every tick start happens at an instant at which the loop read
`is_running` as true: the outer test guards every tick. -/
theorem monitoring_loop_tick_guarded (running raises : Nat → Bool) (interval tickDur : Nat) :
    ∀ (f : Nat) (ph : LoopPhase) (t x : Nat),
      x ∈ monitoring_loop running raises interval tickDur f ph t → running x = true := by
  intro f
  induction f with
  | zero =>
    intro ph t x hx
    simp [monitoring_loop] at hx
  | succ f ih =>
    intro ph t x hx
    cases ph with
    | outer =>
      by_cases hr : running t
      · by_cases he : raises t
        · rw [monitoring_loop, if_pos hr, if_pos he] at hx
          rcases List.mem_cons.mp hx with h | h
          · rw [h]; exact hr
          · exact ih LoopPhase.outer (t + tickDur + 10) x h
        · rw [monitoring_loop, if_pos hr, if_neg he] at hx
          rcases List.mem_cons.mp hx with h | h
          · rw [h]; exact hr
          · exact ih (LoopPhase.inner 0) (t + tickDur) x h
      · rw [monitoring_loop, if_neg hr] at hx
        simp at hx
    | inner s =>
      by_cases hc : (s < interval && running t) = true
      · rw [monitoring_loop, if_pos hc] at hx
        exact ih (LoopPhase.inner (s + 1)) (t + 1) x hx
      · rw [monitoring_loop, if_neg hc] at hx
        exact ih LoopPhase.outer t x hx

/-- The running flag after a stop request at instant `s`: true strictly
before `s`, false from `s` on. -/
def stopAt (s : Nat) : Nat → Bool := fun u => decide (u < s)

/-- C7: once a stop is requested at instant `s`, every tick start of the
loop lies strictly before `s`; in particular no new tick starts more than
one sleep slice (1 time unit) after the stop request, whatever the
interval, tick duration, fuel, phase and start instant. -/
theorem C7_no_tick_after_stop (s : Nat) (raises : Nat → Bool) (interval tickDur : Nat)
    (f : Nat) (ph : LoopPhase) (t0 x : Nat)
    (hx : x ∈ monitoring_loop (stopAt s) raises interval tickDur f ph t0) :
    x < s ∧ x ≤ s + 1 := by
  have h := monitoring_loop_tick_guarded (stopAt s) raises interval tickDur f ph t0 x hx
  have hlt : x < s := by
    have := of_decide_eq_true h
    exact this
  exact ⟨hlt, by omega⟩

/-- Closed instance of `C7_no_tick_after_stop`: a loop started at instant
0 with stop requested at instant 1 performs its tick at instant 0, before
the stop. -/
theorem C7_witness : (0 : Nat) < 1 ∧ (0 : Nat) ≤ 1 + 1 := by
  exact C7_no_tick_after_stop 1 (fun _ => false) 2 0 9 LoopPhase.outer 0 0 (by decide)

/-!
Lifecycle (lines 445-477).  The runtime state carries `self.is_running`,
`self.check_thread` (the background thread object, abstracted to an
identifier) and `self.checks_config`.  Each operation returns the new
state together with the warning or error message it logs, if any.
-/

/-- The runtime state of the checker relevant to start/stop. -/
structure Runtime where
  is_running : Bool
  check_thread : Option Nat
  checks_config : List CheckConfig
deriving DecidableEq

/-- Embedding of `start_monitoring` (lines 445-461): warn and return if
already running (lines 449-451), error and return if no checks are
configured (lines 453-455), otherwise set the flag and start a fresh
background thread (lines 457-459).  `freshThread` stands for the newly
created thread object. -/
def start_monitoring (r : Runtime) (freshThread : Nat) : Runtime × Option String :=
  if r.is_running then
    (r, some "Monitoring is already running")
  else if r.checks_config.isEmpty then
    (r, some "No checks configured. Cannot start monitoring.")
  else
    ({ r with is_running := true, check_thread := some freshThread }, none)

/-- Embedding of `stop_monitoring` (lines 463-477): warn and return if not
running (lines 467-469), otherwise clear the flag and join the thread,
which leaves the stored thread reference as it is (lines 471-475). -/
def stop_monitoring (r : Runtime) : Runtime × Option String :=
  if !r.is_running then
    (r, some "Monitoring is not running")
  else
    ({ r with is_running := false }, none)

/-- C9: starting while running is a no-op that reports a warning, stopping
while stopped is a no-op that reports a warning, and consequently two
consecutive starts leave the same state as one start and two consecutive
stops leave the same state as one stop. -/
theorem C9_lifecycle_idempotent (r : Runtime) (n1 n2 : Nat) :
    (r.is_running = true →
      start_monitoring r n1 = (r, some "Monitoring is already running"))
    ∧ (r.is_running = false →
      stop_monitoring r = (r, some "Monitoring is not running"))
    ∧ (start_monitoring (start_monitoring r n1).1 n2).1 = (start_monitoring r n1).1
    ∧ (stop_monitoring (stop_monitoring r).1).1 = (stop_monitoring r).1 := by
  refine ⟨?_, ?_, ?_, ?_⟩
  · intro h
    simp [start_monitoring, h]
  · intro h
    simp [stop_monitoring, h]
  · by_cases h : r.is_running
    · simp [start_monitoring, h]
    · by_cases hc : r.checks_config.isEmpty
      · simp [start_monitoring, h, hc]
      · simp [start_monitoring, h, hc]
  · by_cases h : r.is_running
    · simp [stop_monitoring, h]
    · simp [stop_monitoring, h]

/-- Closed instance of `C9_lifecycle_idempotent`. -/
theorem C9_witness :
    start_monitoring ⟨true, some 0, [cfgDemo]⟩ 1
      = (⟨true, some 0, [cfgDemo]⟩, some "Monitoring is already running")
    ∧ stop_monitoring ⟨false, none, [cfgDemo]⟩
      = (⟨false, none, [cfgDemo]⟩, some "Monitoring is not running") :=
  ⟨(C9_lifecycle_idempotent ⟨true, some 0, [cfgDemo]⟩ 1 2).1 rfl,
   (C9_lifecycle_idempotent ⟨false, none, [cfgDemo]⟩ 1 2).2.1 rfl⟩
